import Mathlib

/-!
A shallow embedding of the authentication / account-verification core of the
Portfolio-Backend repository (`backend/app/security.py`,
`backend/app/routers/auth.py`, `backend/app/models.py`,
`backend/app/rank_utils.py`), together with theorems settling the claims
about it.

Modelling conventions:
* Machine time is modelled as `Nat` minutes (the code only ever compares
  `datetime` values and adds fixed `timedelta`s of 15 / 30 minutes and 1 day,
  so minute granularity is faithful).
* The passlib `CryptContext` (bcrypt) is an external library.  A stored hash
  string is modelled by `StoredHash`: `bcrypt p` stands for a well-formed
  bcrypt record produced by `pwd_context.hash(p)` (idealised: verification
  succeeds exactly on the original plaintext), and `malformed s` stands for a
  string that the library cannot identify as a hash.  passlib's
  `CryptContext.verify` raises `UnknownHashError` on such strings — the
  repository itself relies on this: `verify_verification_code` in
  `security.py` wraps the call in `try/except` returning `False`, while
  `verify_password` does not.  The raising library call is modelled as an
  `Except`-valued function.
* Database rows are modelled as Lean structures; a table is a `List` of rows;
  `db.commit()` of mutated ORM objects is modelled by returning the updated
  list.  Columns never read by the modelled operations are omitted.
-/

/-- A stored password/code hash string as seen by passlib: either a
well-formed bcrypt record of some plaintext, or a malformed string. -/
inductive StoredHash where
  | bcrypt (plain : String)
  | malformed (s : String)
deriving Repr, DecidableEq

/-- passlib `CryptContext.verify`: returns a boolean for a well-formed hash,
raises (modelled as `Except.error`) when the stored hash cannot be
identified. -/
def pwd_context_verify (plain : String) (hashed : StoredHash) : Except String Bool :=
  match hashed with
  | .bcrypt p => .ok (decide (plain = p))
  | .malformed _ => .error "hash could not be identified"

/-- Source `security.verify_password`: `return pwd_context.verify(plain_password,
hashed_password)` — no exception handling, the library call's outcome is
returned as-is. -/
def verify_password (plain_password : String) (hashed_password : StoredHash) :
    Except String Bool :=
  pwd_context_verify plain_password hashed_password

/-- Source `security.verify_verification_code`: the same library call wrapped in
`try/except Exception: return False`. -/
def verify_verification_code (plain_code : String) (hashed_code : StoredHash) : Bool :=
  match pwd_context_verify plain_code hashed_code with
  | .ok b => b
  | .error _ => false

/-- The special-character set of `security.is_password_strong`:
`"!@#$%^&*()_+-=[]{}|;:,.<>?"`. -/
def special_chars : List Char := "!@#$%^&*()_+-=[]\x7b\x7d|;:,.<>?".toList

/-- Source `security.is_password_strong`: returns `(ok, reason)`, checking the rules
in source order (length, uppercase, lowercase, digit, special character). -/
def is_password_strong (password : String) : Bool × String :=
  if password.length < 8 then
    (false, "Password must be at least 8 characters long")
  else if !(password.toList.any Char.isUpper) then
    (false, "Password must contain at least one uppercase letter")
  else if !(password.toList.any Char.isLower) then
    (false, "Password must contain at least one lowercase letter")
  else if !(password.toList.any Char.isDigit) then
    (false, "Password must contain at least one number")
  else if !(password.toList.any (fun c => special_chars.contains c)) then
    (false, "Password must contain at least one special character")
  else
    (true, "Password is strong")

/-- Character class `[a-zA-Z0-9._%+-]` of the local part of the email regex
in `security.is_email_valid`. -/
def email_local_char (c : Char) : Bool :=
  c.isAlphanum || c = '.' || c = '_' || c = '%' || c = '+' || c = '-'

/-- Character class `[a-zA-Z0-9.-]` of the domain part of the email regex. -/
def email_domain_char (c : Char) : Bool :=
  c.isAlphanum || c = '.' || c = '-'

/-- Split a character list at every occurrence of `sep` (the separator is
dropped; `n` separators yield `n + 1` parts, as Python's `str.split`). -/
def splitOnChar (sep : Char) : List Char → List (List Char)
  | [] => [[]]
  | c :: cs =>
    let r := splitOnChar sep cs
    if c = sep then [] :: r
    else
      match r with
      | p :: ps => (c :: p) :: ps
      | [] => [[c]]

/-- Source `security.is_email_valid`: the anchored regex
`^[a-zA-Z0-9._%+-]+@[a-zA-Z0-9.-]+\.[a-zA-Z]\x7b2,\x7d$`.  Since neither
character class contains `@`, a match forces exactly one `@`; since the final
group contains no dot, the mandatory `\.` of a match is the last dot of the
domain.  The recogniser below implements exactly that language: one `@`, a
nonempty local part over its class, a domain containing a dot whose final
segment is two or more letters and whose remainder is a nonempty string over
the domain class. -/
def is_email_valid (s : String) : Bool :=
  match splitOnChar '@' s.toList with
  | [l, d] =>
    if l.isEmpty || !(l.all email_local_char) then false
    else
      match (splitOnChar '.' d).reverse with
      | tld :: rest =>
        if rest.isEmpty then false
        else if tld.length < 2 || !(tld.all Char.isAlpha) then false
        else if ((rest.map List.length).sum + (rest.length - 1)) = 0 then false
        else rest.all (fun p => p.all email_domain_char)
      | [] => false
  | _ => false

/-- Source `models.UserRole` row (`user_roles` table): the fields read by
`User.has_permission` and the registration default-role lookup. -/
structure RoleRec where
  id : Nat
  name : String
  permissions : List String
deriving Repr, DecidableEq

/-- Source `models.UserRank` row (`user_ranks` table): the fields read by
`rank_utils.auto_check_rank_upgrade` and the registration default-rank
lookup.  `requirements` is a JSON object read via
`requirements.get("comments", 0)` / `requirements.get("likes", 0)`; the two
looked-up values (with their defaults already applied, and `requirements or
\x7b\x7d` folding a NULL column to the defaults) are stored directly. -/
structure RankRec where
  id : Nat
  name : String
  display_name : String
  icon : String
  level : Nat
  comments_req : Nat
  likes_req : Nat
  is_active : Bool
deriving Repr, DecidableEq

/-- Source `models.User` row (`users` table), restricted to the columns read or
written by the modelled operations.  The ORM relationship attributes
`user.role` / `user.rank` are carried as the joined row itself.  Timestamps
are `Nat` minutes. -/
structure UserRec where
  id : Nat
  username : String
  email : String
  hashed_password : StoredHash
  is_active : Bool
  is_admin : Bool
  role : Option RoleRec
  rank : Option RankRec
  total_comments : Nat
  total_likes_received : Nat
  email_verified : Bool
  verification_code_hash : Option StoredHash
  verification_token : Option String
  verification_expires_at : Option Nat
  failed_login_attempts : Option Nat
  account_locked_until : Option Nat
  last_login : Option Nat
  account_expires_at : Option Nat
deriving Repr, DecidableEq

/-- Source `models.User.has_permission`: the legacy `is_admin` flag short-circuits to
`True`; otherwise `if self.role and self.role.permissions: return permission
in self.role.permissions` (an absent role or an empty/NULL permission list is
falsy), else `False`. -/
def has_permission (u : UserRec) (permission : String) : Bool :=
  if u.is_admin then true
  else
    match u.role with
    | some r => if r.permissions.isEmpty then false else r.permissions.contains permission
    | none => false

/-- The decoded payload of a JWT that carries the server's valid signature
(`jwt.decode` under `SECRET_KEY` succeeded).  `typ` is the `"type"` claim,
`exp` the expiry timestamp, `jti` the random token id, `sub` the subject. -/
structure TokenPayload where
  sub : String
  typ : String
  exp : Nat
  jti : Nat
deriving Repr, DecidableEq

/-- Source `security.verify_token`: after a successful decode, reject a wrong
`"type"` claim or an expiry in the past, otherwise return the payload.
(An undecodable token — bad signature or garbage — raises `JWTError`, caught
and turned into `None`; that case is modelled at the call sites by the
cookie alternatives below.) -/
def verify_token (t : TokenPayload) (token_type : String) (now : Nat) :
    Option TokenPayload :=
  if t.typ ≠ token_type then none
  else if t.exp < now then none
  else some t

/-- Source `security.create_access_token` as called by the auth router: subject is
the user's email, expiry 15 minutes from now, type `"access"`; the random
`jti` is passed in. -/
def create_access_token (email : String) (now : Nat) (jti : Nat) : TokenPayload :=
  { sub := email, typ := "access", exp := now + 15, jti := jti }

/-- Source `security.create_refresh_token`: subject is `str(user_id)`, expiry 7 days
(in minutes) from now, type `"refresh"`; the random `jti` is passed in. -/
def create_refresh_token (user_id : Nat) (now : Nat) (jti : Nat) : TokenPayload :=
  { sub := toString user_id, typ := "refresh", exp := now + 7 * 24 * 60, jti := jti }

/-- The `refresh_token` cookie as the `/auth/refresh` handler sees it:
absent, present but not decodable under the server secret (signature or
format failure — `verify_token` returns `None` via `JWTError`), or a
validly-signed payload. -/
inductive RefreshCookie where
  | missing
  | undecodable
  | valid (t : TokenPayload)
deriving Repr, DecidableEq

/-- Outcome of the `/auth/refresh` handler. -/
inductive RefreshResult where
  | noRefreshToken
  | invalidRefreshToken
  | userNotFound
  | refreshed (access : TokenPayload) (refresh : TokenPayload)
deriving Repr, DecidableEq

/-- Tests for the `RefreshResult.refreshed` constructor. -/
def RefreshResult.isRefreshed : RefreshResult → Bool
  | .refreshed _ _ => true
  | _ => false

/-- Source `routers/auth.refresh_token` (`POST /auth/refresh`): read the cookie,
verify it as a `"refresh"` token, look the user up by `int(sub)`, reject a
missing or inactive user, otherwise mint a fresh access + refresh pair
(rotation) and set both cookies.  The handler performs no database write, so
the user table is returned unchanged on every path.  `jti_a`/`jti_r` supply
the two fresh random token ids. -/
def refresh_token_endpoint (users : List UserRec) (cookie : RefreshCookie)
    (now : Nat) (jti_a jti_r : Nat) : List UserRec × RefreshResult :=
  match cookie with
  | .missing => (users, .noRefreshToken)
  | .undecodable => (users, .invalidRefreshToken)
  | .valid t =>
    match verify_token t "refresh" now with
    | none => (users, .invalidRefreshToken)
    | some payload =>
      if payload.sub = "" then (users, .invalidRefreshToken)
      else
        match users.find? (fun u => toString u.id == payload.sub) with
        | none => (users, .userNotFound)
        | some u =>
          if !u.is_active then (users, .userNotFound)
          else
            (users, .refreshed (create_access_token u.email now jti_a)
                               (create_refresh_token u.id now jti_r))

/-- Replace-by-email update of the user table: the committed mutation of the
ORM object fetched by `get_user_by_email` (emails carry a uniqueness
constraint, so at most one row matches). -/
def update_by_email (users : List UserRec) (email : String) (f : UserRec → UserRec) :
    List UserRec :=
  users.map (fun u => if u.email == email then f u else u)

/-- The per-user effect of `security.handle_failed_login` once the user is
found: increment `failed_login_attempts` (a NULL counter becomes 1), and if
the counter has reached 5 set `account_locked_until` to 30 minutes from
now. -/
def handle_failed_login_user (u : UserRec) (now : Nat) : UserRec :=
  let attempts := match u.failed_login_attempts with
    | none => 1
    | some n => n + 1
  if attempts ≥ 5 then
    { u with failed_login_attempts := some attempts,
             account_locked_until := some (now + 30) }
  else
    { u with failed_login_attempts := some attempts }

/-- Source `security.handle_failed_login`: look the user up by email; if absent do
nothing, otherwise apply the per-user update and commit. -/
def handle_failed_login (users : List UserRec) (email : String) (now : Nat) :
    List UserRec :=
  match users.find? (fun u => u.email == email) with
  | none => users
  | some _ => update_by_email users email (fun u => handle_failed_login_user u now)

/-- The lock test used inline by `authenticate_user` and `login_user`:
`account_locked_until` is set and still in the future. -/
def is_locked (u : UserRec) (now : Nat) : Bool :=
  match u.account_locked_until with
  | some l => decide (now < l)
  | none => false

/-- Outcome of the `/auth/login` handler. -/
inductive LoginResult where
  | invalidCredentials
  | notActivated
  | emailNotVerified
  | locked
  | success
deriving Repr, DecidableEq

/-- Source `security.authenticate_user` acting on the fetched user (`None` when the
email matched no row): wrong password → `False` (before any lock check); a
still-active lock → `False`; an expired lock is cleared and committed; on
success the failed-attempt counter is reset and `last_login` stamped.
Returns the committed user row (when one was fetched) and the
success/failure result; a malformed stored hash propagates the passlib
error. -/
def authenticate_user (uOpt : Option UserRec) (password : String) (now : Nat) :
    Except String (Option UserRec × Bool) :=
  match uOpt with
  | none => .ok (none, false)
  | some u =>
    match verify_password password u.hashed_password with
    | .error e => .error e
    | .ok pwOk =>
      if !pwOk then .ok (some u, false)
      else
        match u.account_locked_until with
        | some l =>
          if now < l then .ok (some u, false)
          else
            .ok (some { u with account_locked_until := none,
                               failed_login_attempts := some 0,
                               last_login := some now }, true)
        | none =>
          .ok (some { u with failed_login_attempts := some 0,
                             last_login := some now }, true)

/-- Source `routers/auth.login_user` (`POST /auth/login`): authenticate by email; on
failure run `handle_failed_login` and answer 401 invalid-credentials; then
reject inactive accounts, unverified emails, and a still-locked account
(423); otherwise mint the token pair and succeed.  Returns the committed
user table and the outcome. -/
def login_user (users : List UserRec) (email password : String) (now : Nat) :
    Except String (List UserRec × LoginResult) :=
  match authenticate_user (users.find? (fun u => u.email == email)) password now with
  | .error e => .error e
  | .ok (_, false) =>
    .ok (handle_failed_login users email now, .invalidCredentials)
  | .ok (uOpt, true) =>
    match uOpt with
    | none => .ok (handle_failed_login users email now, .invalidCredentials)
    | some u =>
      let users' := update_by_email users email (fun _ => u)
      if !u.is_active then .ok (users', .notActivated)
      else if !u.email_verified then .ok (users', .emailNotVerified)
      else
        match u.account_locked_until with
        | some l =>
          if now < l then .ok (users', .locked)
          else .ok (users', .success)
        | none => .ok (users', .success)

/-- Outcome of the `/auth/verify-email` handler. -/
inductive VerifyEmailResult where
  | userNotFound
  | alreadyVerified
  | codeExpired
  | invalidCode
  | success
deriving Repr, DecidableEq

/-- Source `routers/auth.verify_email` (`POST /auth/verify-email`): 404 on unknown
email; 400 `EMAIL_ALREADY_VERIFIED` on a verified account; 400
`VERIFICATION_CODE_EXPIRED` when no expiry is stored or the stored expiry is
before now (checked *before* the code); 400 `INVALID_VERIFICATION_CODE` when
no code hash is stored or the bcrypt check fails; otherwise set
verified + active, clear the three challenge fields, commit, and issue the
token pair. -/
def verify_email (users : List UserRec) (email code : String) (now : Nat) :
    List UserRec × VerifyEmailResult :=
  match users.find? (fun u => u.email == email) with
  | none => (users, .userNotFound)
  | some u =>
    if u.email_verified then (users, .alreadyVerified)
    else
      match u.verification_expires_at with
      | none => (users, .codeExpired)
      | some exp =>
        if exp < now then (users, .codeExpired)
        else
          match u.verification_code_hash with
          | none => (users, .invalidCode)
          | some h =>
            if !(verify_verification_code code h) then (users, .invalidCode)
            else
              (update_by_email users email (fun v =>
                { v with email_verified := true, is_active := true,
                         verification_code_hash := none,
                         verification_token := none,
                         verification_expires_at := none }),
               .success)

/-- The body of the `APIResponse` value returned by the resend handler. -/
structure APIRespModel where
  success : Bool
  rtype : String
  translation_code : String
  message : String
  expires_in_minutes : Nat
deriving Repr, DecidableEq

/-- Outcome of the `/auth/resend-verification` handler. -/
inductive ResendOutcome where
  | response (r : APIRespModel)
  | errorAlreadyVerified
  | errorEmailSendFailed
deriving Repr, DecidableEq

/-- Source `routers/auth.resend_verification_code` (`POST /auth/resend-verification`):
unknown email → 200 with the "If the email exists…" body; verified account →
400; otherwise overwrite the challenge (new code hash, token, expiry
now + 15), commit, send the email (`email_send_ok` is the provider's
success flag), 500 on send failure, else 200 with the "New verification
code…" body.  `fresh_code`/`fresh_token` supply the generated randomness. -/
def resend_verification_code (users : List UserRec) (email : String)
    (fresh_code fresh_token : String) (now : Nat) (email_send_ok : Bool) :
    List UserRec × ResendOutcome :=
  match users.find? (fun u => u.email == email) with
  | none =>
    (users, .response { success := true, rtype := "info",
                        translation_code := "VERIFICATION_CODE_RESENT",
                        message := "If the email exists, a new verification code has been sent",
                        expires_in_minutes := 15 })
  | some u =>
    if u.email_verified then (users, .errorAlreadyVerified)
    else
      let users' := update_by_email users email (fun v =>
        { v with verification_code_hash := some (.bcrypt fresh_code),
                 verification_token := some fresh_token,
                 verification_expires_at := some (now + 15) })
      if !email_send_ok then (users', .errorEmailSendFailed)
      else
        (users', .response { success := true, rtype := "info",
                             translation_code := "VERIFICATION_CODE_RESENT",
                             message := "New verification code sent to your email",
                             expires_in_minutes := 15 })

/-- Database state for registration: the user table plus the role and rank
reference tables consulted for the defaults. -/
structure DB where
  users : List UserRec
  roles : List RoleRec
  ranks : List RankRec
deriving Repr, DecidableEq

/-- Outcome of the `/auth/register` handler. -/
inductive RegisterOutcome where
  | invalidEmail
  | weakPassword (msg : String)
  | emailExists
  | usernameExists
  | serverConfigError
  | emailSendFailed
  | resent
  | registered (user_id : Nat)
deriving Repr, DecidableEq

/-- The `User(...)` row constructed by `routers/auth.register_user`:
inactive, unverified, default role and rank, a fresh hashed challenge
expiring in 15 minutes, and a 24-hour account-expiry deadline. -/
def new_user_row (username email password fresh_code fresh_token : String)
    (new_id now : Nat) (default_role : RoleRec) (default_rank : RankRec) : UserRec :=
  { id := new_id, username := username, email := email,
    hashed_password := .bcrypt password,
    is_active := false, is_admin := false,
    role := some default_role, rank := some default_rank,
    total_comments := 0, total_likes_received := 0,
    email_verified := false,
    verification_code_hash := some (.bcrypt fresh_code),
    verification_token := some fresh_token,
    verification_expires_at := some (now + 15),
    failed_login_attempts := some 0,
    account_locked_until := none, last_login := none,
    account_expires_at := some (now + 24 * 60) }

/-- Source `routers/auth.register_user` (`POST /auth/register`): validate the email
format and password strength; an existing row matching the email or the
username yields duplicate errors (a matching *unverified* email instead
overwrites its challenge and resends — with no rollback of the committed
challenge on send failure); otherwise look up the default role/rank, create
the unverified inactive user (challenge expiring in 15 minutes, account
expiring in 24 hours), commit, and send the verification email.  If the
send fails, the just-created row is deleted (by primary key) and committed
before the 500 is returned.  `fresh_code`/`fresh_token`/`new_id` supply the
generated randomness and the autoincrement key; `email_send_ok` is the
provider's success flag. -/
def register_user (db : DB) (username email password : String)
    (fresh_code fresh_token : String) (new_id : Nat) (now : Nat)
    (email_send_ok : Bool) : DB × RegisterOutcome :=
  if !(is_email_valid email) then (db, .invalidEmail)
  else if !(is_password_strong password).1 then
    (db, .weakPassword (is_password_strong password).2)
  else
    match db.users.find? (fun u => u.email == email || u.username == username) with
    | some existing =>
      if existing.email == email then
        if existing.email_verified then (db, .emailExists)
        else
          let db' := { db with users := update_by_email db.users email (fun v =>
            { v with verification_code_hash := some (.bcrypt fresh_code),
                     verification_token := some fresh_token,
                     verification_expires_at := some (now + 15) }) }
          if !email_send_ok then (db', .emailSendFailed)
          else (db', .resent)
      else (db, .usernameExists)
    | none =>
      match db.roles.find? (fun r => r.name == "user") with
      | none => (db, .serverConfigError)
      | some default_role =>
        match db.ranks.find? (fun r => r.name == "newbie") with
        | none => (db, .serverConfigError)
        | some default_rank =>
          let new_user := new_user_row username email password fresh_code
            fresh_token new_id now default_role default_rank
          let db1 := { db with users := db.users ++ [new_user] }
          if email_send_ok then (db1, .registered new_id)
          else
            ({ db1 with users := db1.users.filter (fun u => !(u.id == new_id)) },
             .emailSendFailed)

/-- Threshold test of `rank_utils.auto_check_rank_upgrade`:
`user.total_comments >= comments_req and user.total_likes_received >=
likes_req`. -/
def rank_satisfied (total_comments total_likes : Nat) (r : RankRec) : Bool :=
  decide (total_comments ≥ r.comments_req) && decide (total_likes ≥ r.likes_req)

/-- Promotion guard of `rank_utils.auto_check_rank_upgrade`:
`not user.rank or rank.level > user.rank.level`. -/
def rank_promote_cond (u : UserRec) (r : RankRec) : Bool :=
  match u.rank with
  | none => true
  | some cur => decide (r.level > cur.level)

/-- The `for rank in available_ranks` loop of
`rank_utils.auto_check_rank_upgrade`, taking the query result (the active
ranks ordered by `level` descending): skip unsatisfied ranks; at the first
satisfied rank either promote (commit `rank_id` and report an upgrade) or
`break` (the user already holds that rank or a higher one).  Returns the
committed user and the `upgraded` flag of the result dict. -/
def auto_check_rank_upgrade (u : UserRec) : List RankRec → UserRec × Bool
  | [] => (u, false)
  | r :: rs =>
    if rank_satisfied u.total_comments u.total_likes_received r then
      if rank_promote_cond u r then ({ u with rank := some r }, true)
      else (u, false)
    else auto_check_rank_upgrade u rs

/-- A concrete verified active account used to instantiate theorems. -/
def baseUser : UserRec :=
  { id := 1, username := "alice", email := "alice@example.com",
    hashed_password := .bcrypt "Str0ng!Pass",
    is_active := true, is_admin := false, role := none, rank := none,
    total_comments := 0, total_likes_received := 0, email_verified := true,
    verification_code_hash := none, verification_token := none,
    verification_expires_at := none, failed_login_attempts := some 0,
    account_locked_until := none, last_login := none, account_expires_at := none }

/-- A concrete pending-verification account (registered, not yet verified). -/
def pendingUser : UserRec :=
  { baseUser with is_active := false, email_verified := false,
                  verification_code_hash := some (.bcrypt "111111"),
                  verification_token := some "tok1",
                  verification_expires_at := some 10 }

/-- The default role row looked up at registration. -/
def demoRole : RoleRec := { id := 1, name := "user", permissions := [] }

/-- The default rank row looked up at registration. -/
def demoRank : RankRec :=
  { id := 1, name := "newbie", display_name := "Newbie", icon := "n",
    level := 1, comments_req := 0, likes_req := 0, is_active := true }

/-- A concrete database with the two default reference rows and no users. -/
def demoDB : DB := { users := [], roles := [demoRole], ranks := [demoRank] }

/-- C10: for every user whose legacy `is_admin` flag is true,
`has_permission` answers true for every permission string, bypassing the
role's permission set entirely. -/
theorem admin_flag_bypasses_permissions (u : UserRec) (p : String)
    (h : u.is_admin = true) : has_permission u p = true := by
  simp [has_permission, h]

theorem admin_flag_bypasses_permissions_witness :
    ({ baseUser with is_admin := true } : UserRec).is_admin = true ∧
      has_permission { baseUser with is_admin := true } "delete_post" = true :=
  ⟨rfl, admin_flag_bypasses_permissions { baseUser with is_admin := true }
    "delete_post" rfl⟩

/-- C4 counterexample: `verify_password` on a malformed stored hash does not
return a boolean — the passlib error propagates (the call raises), instead of
being treated as "verification failed". -/
theorem verify_password_malformed_counterexample :
    verify_password "password" (StoredHash.malformed "not-a-hash") =
      Except.error "hash could not be identified" := rfl

/-- C4 (amended): only `verify_verification_code` treats a malformed stored
hash as "verification failed" (false, no exception); `verify_password` has no
handler and propagates the library's malformed-hash error, returning a
boolean only for well-formed bcrypt hashes. -/
theorem verify_failure_semantics :
    (∀ p s, verify_password p (StoredHash.malformed s) =
        Except.error "hash could not be identified")
    ∧ (∀ p s, verify_verification_code p (StoredHash.malformed s) = false)
    ∧ (∀ p q, verify_password p (StoredHash.bcrypt q) = Except.ok (decide (p = q))) :=
  ⟨fun _ _ => rfl, fun _ _ => rfl, fun _ _ => rfl⟩

/-- A concrete currently-locked account: 5 failed attempts, locked until
minute 100. -/
def lockedUser5 : UserRec :=
  { baseUser with failed_login_attempts := some 5, account_locked_until := some 100 }

/-- A concrete currently-locked account: 6 failed attempts, locked until
minute 200. -/
def lockedUser6 : UserRec :=
  { baseUser with failed_login_attempts := some 6, account_locked_until := some 200 }

/-- C2 counterexample: an account locked until minute 100 with 5 failed
attempts receives a further failed attempt at minute 80 (lock still active)
— the lockout deadline moves to minute 110, i.e. it is extended, not left
unchanged. -/
theorem locked_rearm_counterexample :
    is_locked lockedUser5 80 = true
    ∧ (handle_failed_login_user lockedUser5 80).account_locked_until = some 110
    ∧ some 110 ≠ lockedUser5.account_locked_until := by
  refine ⟨rfl, rfl, ?_⟩
  decide

/-- C2 (amended): a failed login processed while the lock is active re-arms
the lock — since the failed-attempt counter is at least 5 again after the
increment, `handle_failed_login` sets `account_locked_until` to 30 minutes
after the new failure, extending the lockout window. -/
theorem failed_login_while_locked_rearms (u : UserRec) (now l n : Nat)
    (hl : u.account_locked_until = some l) (hnow : now < l)
    (hn : u.failed_login_attempts = some n) (h4 : 4 ≤ n) :
    is_locked u now = true
    ∧ (handle_failed_login_user u now).account_locked_until = some (now + 30)
    ∧ (handle_failed_login_user u now).failed_login_attempts = some (n + 1) := by
  have h5 : n + 1 ≥ 5 := by omega
  refine ⟨by simp [is_locked, hl, hnow], ?_, ?_⟩ <;>
    simp [handle_failed_login_user, hn, h5]

theorem failed_login_while_locked_rearms_witness :
    lockedUser6.account_locked_until = some 200
    ∧ 150 < 200
    ∧ lockedUser6.failed_login_attempts = some 6
    ∧ 4 ≤ 6
    ∧ (is_locked lockedUser6 150 = true
       ∧ (handle_failed_login_user lockedUser6 150).account_locked_until = some (150 + 30)
       ∧ (handle_failed_login_user lockedUser6 150).failed_login_attempts = some (6 + 1)) :=
  ⟨rfl, by decide, rfl, by decide,
    failed_login_while_locked_rearms lockedUser6 150 200 6 rfl (by decide) rfl (by decide)⟩

/-- C3 (code bug): the resend-verification handler's response *does* depend
on whether the email exists — for an existing unverified account the body
message is "New verification code sent to your email", for an unknown email
it is "If the email exists, a new verification code has been sent", although
the handler's own comment says not to reveal whether the user exists. -/
theorem resend_response_depends_on_existence :
    (resend_verification_code [pendingUser] "alice@example.com" "222222" "tok2" 0 true).2
      ≠ (resend_verification_code [pendingUser] "bob@example.com" "222222" "tok2" 0 true).2 := by
  decide

/-- C7: for a pending-verification account whose challenge expiry lies in the
past, `verify_email` rejects with the distinct expired outcome — even though
the submitted code matches the stored hash — the expired outcome differs from
the wrong-code outcome, and the user table (hence the account's
verified/active state) is unchanged. -/
theorem expired_code_distinct_rejection (users : List UserRec)
    (email code : String) (now e : Nat) (u : UserRec)
    (hfind : users.find? (fun v => v.email == email) = some u)
    (hver : u.email_verified = false)
    (hexp : u.verification_expires_at = some e) (hlt : e < now)
    (hcode : u.verification_code_hash = some (StoredHash.bcrypt code)) :
    verify_email users email code now = (users, VerifyEmailResult.codeExpired)
    ∧ VerifyEmailResult.codeExpired ≠ VerifyEmailResult.invalidCode := by
  refine ⟨?_, by decide⟩
  unfold verify_email
  rw [hfind]
  simp [hver, hexp, hlt]

theorem expired_code_distinct_rejection_witness :
    [pendingUser].find? (fun v => v.email == "alice@example.com") = some pendingUser
    ∧ pendingUser.email_verified = false
    ∧ pendingUser.verification_expires_at = some 10
    ∧ 10 < 26
    ∧ pendingUser.verification_code_hash = some (StoredHash.bcrypt "111111")
    ∧ (verify_email [pendingUser] "alice@example.com" "111111" 26 =
        ([pendingUser], VerifyEmailResult.codeExpired)
       ∧ VerifyEmailResult.codeExpired ≠ VerifyEmailResult.invalidCode) :=
  ⟨by decide, rfl, rfl, by decide, rfl,
    expired_code_distinct_rejection [pendingUser] "alice@example.com" "111111" 26 10
      pendingUser (by decide) rfl rfl (by decide) rfl⟩

/-- C5: registering a fresh account (valid email, strong password, no
existing row with that email or username, default role and rank configured)
when the verification-email delivery fails leaves the database exactly as it
was — the just-created row is deleted again before the error is returned —
and the operation reports the email-send failure. -/
theorem register_rollback_on_email_failure (db : DB)
    (username email password fresh_code fresh_token : String)
    (new_id now : Nat) (rl : RoleRec) (rk : RankRec)
    (hemail : is_email_valid email = true)
    (hpw : (is_password_strong password).1 = true)
    (hnew : db.users.find? (fun u => u.email == email || u.username == username) = none)
    (hrole : db.roles.find? (fun r => r.name == "user") = some rl)
    (hrank : db.ranks.find? (fun r => r.name == "newbie") = some rk)
    (hfresh : ∀ u ∈ db.users, u.id ≠ new_id) :
    register_user db username email password fresh_code fresh_token new_id now false
      = (db, RegisterOutcome.emailSendFailed) := by
  unfold register_user
  rw [hnew, hrole, hrank]
  have hfilter :
      (db.users ++
          [new_user_row username email password fresh_code fresh_token new_id now rl rk]).filter
        (fun u => !(u.id == new_id)) = db.users := by
    rw [List.filter_append]
    have h1 : db.users.filter (fun u => !(u.id == new_id)) = db.users := by
      apply List.filter_eq_self.mpr
      intro u hu
      simpa using hfresh u hu
    simp [h1, new_user_row]
  simp [hemail, hpw, hfilter]

theorem register_rollback_on_email_failure_witness :
    is_email_valid "carol@example.com" = true
    ∧ ((is_password_strong "Str0ng!Pass").1 = true)
    ∧ (demoDB.users.find?
        (fun u => u.email == "carol@example.com" || u.username == "carol") = none)
    ∧ demoDB.roles.find? (fun r => r.name == "user") = some demoRole
    ∧ demoDB.ranks.find? (fun r => r.name == "newbie") = some demoRank
    ∧ (∀ u ∈ demoDB.users, u.id ≠ 7)
    ∧ register_user demoDB "carol" "carol@example.com" "Str0ng!Pass" "333333" "tok3" 7 0 false
        = (demoDB, RegisterOutcome.emailSendFailed) :=
  ⟨by decide, by decide, rfl, rfl, rfl, by decide,
    register_rollback_on_email_failure demoDB "carol" "carol@example.com" "Str0ng!Pass"
      "333333" "tok3" 7 0 demoRole demoRank (by decide) (by decide) rfl rfl rfl (by decide)⟩

/-- Bridge between the boolean `not/any` tests of `is_password_strong` and
the corresponding "every character fails the class" propositions. -/
theorem not_any_decide (l : List Char) (f : Char → Bool) :
    (!(l.any f)) = decide (∀ c ∈ l, f c = false) := by
  by_cases hP : ∀ c ∈ l, f c = false
  · have hany : l.any f = false := by
      rw [List.any_eq_false]
      intro c hc
      simp [hP c hc]
    simp only [hany, Bool.not_false]
    exact (decide_eq_true hP).symm
  · have hany : l.any f = true := by
      rw [List.any_eq_true]
      by_contra hc
      push_neg at hc
      exact hP (fun c hm => by simpa using hc c hm)
    simp [hany, hP]

/-- C9: the strength check rejects a password exactly when it is under 8
characters or has no uppercase letter, no lowercase letter, no digit, or no
special character; and the returned reason is that of the first rule, in
that order, that the password fails. -/
theorem password_policy_exact (p : String) :
    ((is_password_strong p).1 = false ↔
      (p.length < 8
        ∨ (∀ c ∈ p.toList, c.isUpper = false)
        ∨ (∀ c ∈ p.toList, c.isLower = false)
        ∨ (∀ c ∈ p.toList, c.isDigit = false)
        ∨ (∀ c ∈ p.toList, c ∉ special_chars)))
    ∧ (is_password_strong p).2 =
        (if p.length < 8 then "Password must be at least 8 characters long"
         else if ∀ c ∈ p.toList, c.isUpper = false then
           "Password must contain at least one uppercase letter"
         else if ∀ c ∈ p.toList, c.isLower = false then
           "Password must contain at least one lowercase letter"
         else if ∀ c ∈ p.toList, c.isDigit = false then
           "Password must contain at least one number"
         else if ∀ c ∈ p.toList, c ∉ special_chars then
           "Password must contain at least one special character"
         else "Password is strong") := by
  have e1 := not_any_decide p.toList Char.isUpper
  have e2 := not_any_decide p.toList Char.isLower
  have e3 := not_any_decide p.toList Char.isDigit
  have e4 := not_any_decide p.toList (fun c => special_chars.contains c)
  unfold is_password_strong
  rw [e1, e2, e3, e4]
  simp only [decide_eq_true_eq]
  by_cases h1 : p.length < 8
  · rw [if_pos h1, if_pos h1]
    exact ⟨iff_of_true rfl (Or.inl h1), rfl⟩
  · rw [if_neg h1, if_neg h1]
    by_cases h2 : ∀ c ∈ p.toList, c.isUpper = false
    · rw [if_pos h2, if_pos h2]
      exact ⟨iff_of_true rfl (Or.inr (Or.inl h2)), rfl⟩
    · rw [if_neg h2, if_neg h2]
      by_cases h3 : ∀ c ∈ p.toList, c.isLower = false
      · rw [if_pos h3, if_pos h3]
        exact ⟨iff_of_true rfl (Or.inr (Or.inr (Or.inl h3))), rfl⟩
      · rw [if_neg h3, if_neg h3]
        by_cases h4 : ∀ c ∈ p.toList, c.isDigit = false
        · rw [if_pos h4, if_pos h4]
          exact ⟨iff_of_true rfl (Or.inr (Or.inr (Or.inr (Or.inl h4)))), rfl⟩
        · rw [if_neg h4, if_neg h4]
          by_cases h5 : ∀ c ∈ p.toList, c ∉ special_chars
          · have h5' : ∀ c ∈ p.toList, special_chars.contains c = false := by
              intro c hc
              simpa using h5 c hc
            rw [if_pos h5', if_pos h5]
            exact ⟨iff_of_true rfl (Or.inr (Or.inr (Or.inr (Or.inr h5)))), rfl⟩
          · have h5' : ¬ ∀ c ∈ p.toList, special_chars.contains c = false := by
              intro hcon
              exact h5 (fun c hc => by simpa using hcon c hc)
            rw [if_neg h5', if_neg h5]
            refine ⟨⟨fun hf => absurd hf (by simp), fun hd => ?_⟩, rfl⟩
            rcases hd with h | h | h | h | h
            · exact absurd h h1
            · exact absurd h h2
            · exact absurd h h3
            · exact absurd h h4
            · exact absurd h h5

/-- The `/auth/refresh` handler performs no database write: the user table
comes back unchanged on every path. -/
theorem refresh_endpoint_no_write (users : List UserRec) (c : RefreshCookie)
    (now jti_a jti_r : Nat) :
    (refresh_token_endpoint users c now jti_a jti_r).1 = users := by
  cases c with
  | missing => rfl
  | undecodable => rfl
  | valid t =>
    simp only [refresh_token_endpoint]
    cases hv : verify_token t "refresh" now with
    | none => rfl
    | some payload =>
      dsimp only
      by_cases hs : payload.sub = ""
      · simp [hs]
      · rw [if_neg hs]
        cases hf : users.find? (fun u => toString u.id == payload.sub) with
        | none => rfl
        | some u =>
          by_cases ha : u.is_active <;> simp [ha]

/-- What a successful refresh entails about the token and the user table. -/
theorem refresh_ok_parts (users : List UserRec) (t : TokenPayload)
    (now jti_a jti_r : Nat)
    (h : (refresh_token_endpoint users (.valid t) now jti_a jti_r).2.isRefreshed = true) :
    t.typ = "refresh" ∧ ¬ t.exp < now ∧ t.sub ≠ ""
      ∧ ∃ u, users.find? (fun v => toString v.id == t.sub) = some u
          ∧ u.is_active = true := by
  simp only [refresh_token_endpoint] at h
  cases hv : verify_token t "refresh" now with
  | none => rw [hv] at h; simp [RefreshResult.isRefreshed] at h
  | some payload =>
    have hpt : payload = t := by
      unfold verify_token at hv
      split_ifs at hv
      exact (Option.some_inj.mp hv).symm
    have htyp : t.typ = "refresh" ∧ ¬ t.exp < now := by
      unfold verify_token at hv
      split_ifs at hv with a b
      · exact ⟨not_not.mp a, b⟩
    rw [hv, hpt] at h
    dsimp only at h
    by_cases hs : t.sub = ""
    · rw [if_pos hs] at h
      simp [RefreshResult.isRefreshed] at h
    · rw [if_neg hs] at h
      cases hf : users.find? (fun v => toString v.id == t.sub) with
      | none => rw [hf] at h; simp [RefreshResult.isRefreshed] at h
      | some u =>
        rw [hf] at h
        dsimp only at h
        by_cases ha : u.is_active
        · exact ⟨htyp.1, htyp.2, hs, u, rfl, ha⟩
        · rw [if_pos (by simp [ha])] at h
          simp [RefreshResult.isRefreshed] at h

/-- Converse direction: those conditions make the refresh succeed. -/
theorem refresh_ok_of_parts (users : List UserRec) (t : TokenPayload)
    (now jti_a jti_r : Nat) (u : UserRec)
    (h1 : t.typ = "refresh") (h2 : ¬ t.exp < now) (h3 : t.sub ≠ "")
    (hf : users.find? (fun v => toString v.id == t.sub) = some u)
    (ha : u.is_active = true) :
    (refresh_token_endpoint users (.valid t) now jti_a jti_r).2
      = .refreshed (create_access_token u.email now jti_a)
                   (create_refresh_token u.id now jti_r) := by
  have hv : verify_token t "refresh" now = some t := by
    unfold verify_token
    rw [if_neg (by simp [h1]), if_neg h2]
  simp only [refresh_token_endpoint]
  rw [hv]
  dsimp only
  rw [if_neg h3, hf]
  dsimp only
  rw [if_neg (by simp [ha])]

/-- C1 (amended): the server stores no refresh-token state, so rotation does
not invalidate the pre-rotation refresh token — after a successful refresh
the user table is unchanged and presenting the very same refresh token again
succeeds whenever it is still within its embedded expiry. -/
theorem refresh_rotation_no_invalidation (users : List UserRec)
    (t : TokenPayload) (now now' j1 j2 j1' j2' : Nat)
    (hok : (refresh_token_endpoint users (.valid t) now j1 j2).2.isRefreshed = true)
    (hexp : ¬ t.exp < now') :
    (refresh_token_endpoint users (.valid t) now j1 j2).1 = users
    ∧ (refresh_token_endpoint
        (refresh_token_endpoint users (.valid t) now j1 j2).1
        (.valid t) now' j1' j2').2.isRefreshed = true := by
  obtain ⟨h1, _h2, h3, u, hf, ha⟩ := refresh_ok_parts users t now j1 j2 hok
  refine ⟨refresh_endpoint_no_write users (.valid t) now j1 j2, ?_⟩
  rw [refresh_endpoint_no_write users (.valid t) now j1 j2]
  rw [refresh_ok_of_parts users t now' j1' j2' u h1 hexp h3 hf ha]
  rfl

/-- A concrete validly-signed refresh token for user 1, expiring at minute
10000. -/
def demoRefreshTok : TokenPayload :=
  { sub := "1", typ := "refresh", exp := 10000, jti := 0 }

/-- C1 counterexample: user 1 is active; the refresh flow accepts
`demoRefreshTok` at minute 10 (rotating the cookie pair), leaves the server
state unchanged, and accepts the very same pre-rotation token again at
minute 20 — the second use is *not* rejected as unauthenticated. -/
theorem refresh_reuse_counterexample :
    (refresh_token_endpoint [baseUser] (.valid demoRefreshTok) 10 5 6).2.isRefreshed = true
    ∧ (refresh_token_endpoint [baseUser] (.valid demoRefreshTok) 10 5 6).1 = [baseUser]
    ∧ (refresh_token_endpoint
        (refresh_token_endpoint [baseUser] (.valid demoRefreshTok) 10 5 6).1
        (.valid demoRefreshTok) 20 7 8).2.isRefreshed = true := by
  refine ⟨?_, ?_, ?_⟩ <;> decide

/-- A login attempt with a wrong password: `authenticate_user` returns
`False` at the password check (before any lock handling), so `login_user`
runs `handle_failed_login` and answers invalid-credentials. -/
theorem login_wrong_password (u : UserRec) (e pw wrong : String) (now : Nat)
    (he : u.email = e) (hh : u.hashed_password = .bcrypt pw) (hne : wrong ≠ pw) :
    login_user [u] e wrong now
      = .ok ([handle_failed_login_user u now], LoginResult.invalidCredentials) := by
  have hfind : ([u].find? (fun v => v.email == e)) = some u := by
    simp [List.find?, he]
  have hverify : verify_password wrong u.hashed_password = .ok false := by
    rw [hh]
    simp [verify_password, pwd_context_verify, hne]
  simp only [login_user, hfind, authenticate_user, hverify]
  simp only [handle_failed_login, hfind, update_by_email, List.map, he]
  simp [he]

/-- A login attempt with the correct password while the account lock is
still active: `authenticate_user` returns `False` at the lock check, so
`login_user` again runs `handle_failed_login` and answers
invalid-credentials. -/
theorem login_correct_but_locked (u : UserRec) (e pw : String) (now l : Nat)
    (he : u.email = e) (hh : u.hashed_password = .bcrypt pw)
    (hl : u.account_locked_until = some l) (hnow : now < l) :
    login_user [u] e pw now
      = .ok ([handle_failed_login_user u now], LoginResult.invalidCredentials) := by
  have hfind : ([u].find? (fun v => v.email == e)) = some u := by
    simp [List.find?, he]
  have hverify : verify_password pw u.hashed_password = .ok true := by
    rw [hh]
    simp [verify_password, pwd_context_verify]
  simp only [login_user, hfind, authenticate_user, hverify]
  rw [hl]
  simp only [hnow, if_pos]
  simp only [handle_failed_login, hfind, update_by_email, List.map, he]
  simp [he]

/-- The account state after a sequence of failed login attempts at the given
times (iterated `handle_failed_login` effect on the account's row). -/
def failed_attempts (u : UserRec) : List Nat → UserRec
  | [] => u
  | t :: ts => failed_attempts (handle_failed_login_user u t) ts

/-- C6: starting from an active, verified account with a zero
failed-attempt counter and no lock, five consecutive failed (wrong-password)
login attempts at times `t1 … t5` are each processed as invalid-credentials
failures; after the fifth, the lockout deadline is `t5 + 30` minutes, the
account reports locked for the whole window, and a login with the *correct*
password during the window is still rejected as invalid-credentials (and is
itself processed as a further failed attempt). -/
theorem lockout_after_five_failures (u : UserRec) (e pw wrong : String)
    (t1 t2 t3 t4 t5 : Nat)
    (he : u.email = e) (hh : u.hashed_password = .bcrypt pw) (hne : wrong ≠ pw)
    (hc : u.failed_login_attempts = some 0) (hl : u.account_locked_until = none)
    (ha : u.is_active = true) (hv : u.email_verified = true) :
    login_user [u] e wrong t1
        = .ok ([failed_attempts u [t1]], LoginResult.invalidCredentials)
    ∧ login_user [failed_attempts u [t1]] e wrong t2
        = .ok ([failed_attempts u [t1, t2]], LoginResult.invalidCredentials)
    ∧ login_user [failed_attempts u [t1, t2]] e wrong t3
        = .ok ([failed_attempts u [t1, t2, t3]], LoginResult.invalidCredentials)
    ∧ login_user [failed_attempts u [t1, t2, t3]] e wrong t4
        = .ok ([failed_attempts u [t1, t2, t3, t4]], LoginResult.invalidCredentials)
    ∧ login_user [failed_attempts u [t1, t2, t3, t4]] e wrong t5
        = .ok ([failed_attempts u [t1, t2, t3, t4, t5]], LoginResult.invalidCredentials)
    ∧ (failed_attempts u [t1, t2, t3, t4, t5]).account_locked_until = some (t5 + 30)
    ∧ (∀ now, now < t5 + 30 →
        is_locked (failed_attempts u [t1, t2, t3, t4, t5]) now = true
        ∧ login_user [failed_attempts u [t1, t2, t3, t4, t5]] e pw now
            = .ok ([handle_failed_login_user (failed_attempts u [t1, t2, t3, t4, t5]) now],
                   LoginResult.invalidCredentials)) := by
  have e1 : failed_attempts u [t1] = { u with failed_login_attempts := some 1 } := by
    simp [failed_attempts, handle_failed_login_user, hc]
  have e2 : failed_attempts u [t1, t2] = { u with failed_login_attempts := some 2 } := by
    simp [failed_attempts, handle_failed_login_user, hc]
  have e3 : failed_attempts u [t1, t2, t3]
      = { u with failed_login_attempts := some 3 } := by
    simp [failed_attempts, handle_failed_login_user, hc]
  have e4 : failed_attempts u [t1, t2, t3, t4]
      = { u with failed_login_attempts := some 4 } := by
    simp [failed_attempts, handle_failed_login_user, hc]
  have e5 : failed_attempts u [t1, t2, t3, t4, t5]
      = { u with failed_login_attempts := some 5,
                 account_locked_until := some (t5 + 30) } := by
    simp [failed_attempts, handle_failed_login_user, hc]
  refine ⟨?_, ?_, ?_, ?_, ?_, ?_, ?_⟩
  · rw [show failed_attempts u [t1] = handle_failed_login_user u t1 from rfl]
    exact login_wrong_password u e pw wrong t1 he hh hne
  · rw [e1, e2]
    rw [login_wrong_password { u with failed_login_attempts := some 1 } e pw wrong t2
      he hh hne]
    simp [handle_failed_login_user]
  · rw [e2, e3]
    rw [login_wrong_password { u with failed_login_attempts := some 2 } e pw wrong t3
      he hh hne]
    simp [handle_failed_login_user]
  · rw [e3, e4]
    rw [login_wrong_password { u with failed_login_attempts := some 3 } e pw wrong t4
      he hh hne]
    simp [handle_failed_login_user]
  · rw [e4, e5]
    rw [login_wrong_password { u with failed_login_attempts := some 4 } e pw wrong t5
      he hh hne]
    simp [handle_failed_login_user]
  · rw [e5]
  · intro now hnow
    refine ⟨?_, ?_⟩
    · rw [e5]
      simp [is_locked, hnow]
    · rw [e5]
      exact login_correct_but_locked
        { u with failed_login_attempts := some 5,
                 account_locked_until := some (t5 + 30) }
        e pw now (t5 + 30) he hh rfl hnow

theorem lockout_after_five_failures_witness :
    baseUser.email = "alice@example.com"
    ∧ baseUser.hashed_password = .bcrypt "Str0ng!Pass"
    ∧ "WrongPass1!" ≠ "Str0ng!Pass"
    ∧ baseUser.failed_login_attempts = some 0
    ∧ baseUser.account_locked_until = none
    ∧ baseUser.is_active = true
    ∧ baseUser.email_verified = true
    ∧ (login_user [baseUser] "alice@example.com" "WrongPass1!" 1
          = .ok ([failed_attempts baseUser [1]], LoginResult.invalidCredentials)
       ∧ login_user [failed_attempts baseUser [1]] "alice@example.com" "WrongPass1!" 2
          = .ok ([failed_attempts baseUser [1, 2]], LoginResult.invalidCredentials)
       ∧ login_user [failed_attempts baseUser [1, 2]] "alice@example.com" "WrongPass1!" 3
          = .ok ([failed_attempts baseUser [1, 2, 3]], LoginResult.invalidCredentials)
       ∧ login_user [failed_attempts baseUser [1, 2, 3]] "alice@example.com" "WrongPass1!" 4
          = .ok ([failed_attempts baseUser [1, 2, 3, 4]], LoginResult.invalidCredentials)
       ∧ login_user [failed_attempts baseUser [1, 2, 3, 4]] "alice@example.com" "WrongPass1!" 5
          = .ok ([failed_attempts baseUser [1, 2, 3, 4, 5]], LoginResult.invalidCredentials)
       ∧ (failed_attempts baseUser [1, 2, 3, 4, 5]).account_locked_until = some (5 + 30)
       ∧ (∀ now, now < 5 + 30 →
            is_locked (failed_attempts baseUser [1, 2, 3, 4, 5]) now = true
            ∧ login_user [failed_attempts baseUser [1, 2, 3, 4, 5]]
                  "alice@example.com" "Str0ng!Pass" now
                = .ok ([handle_failed_login_user (failed_attempts baseUser [1, 2, 3, 4, 5]) now],
                       LoginResult.invalidCredentials))) :=
  ⟨rfl, rfl, by decide, rfl, rfl, rfl, rfl,
    lockout_after_five_failures baseUser "alice@example.com" "Str0ng!Pass" "WrongPass1!"
      1 2 3 4 5 rfl rfl (by decide) rfl rfl rfl rfl⟩

theorem refresh_rotation_no_invalidation_witness :
    (refresh_token_endpoint [baseUser] (.valid demoRefreshTok) 10 5 6).2.isRefreshed = true
    ∧ ¬ demoRefreshTok.exp < 20
    ∧ ((refresh_token_endpoint [baseUser] (.valid demoRefreshTok) 10 5 6).1 = [baseUser]
       ∧ (refresh_token_endpoint
            (refresh_token_endpoint [baseUser] (.valid demoRefreshTok) 10 5 6).1
            (.valid demoRefreshTok) 20 7 8).2.isRefreshed = true) :=
  ⟨by decide, by decide,
    refresh_rotation_no_invalidation [baseUser] demoRefreshTok 10 20 5 6 7 8
      (by decide) (by decide)⟩

/-- The rank loop never touches the activity counters. -/
theorem acru_counters (u : UserRec) (rs : List RankRec) :
    (auto_check_rank_upgrade u rs).1.total_comments = u.total_comments
    ∧ (auto_check_rank_upgrade u rs).1.total_likes_received = u.total_likes_received := by
  induction rs with
  | nil => exact ⟨rfl, rfl⟩
  | cons r rs ih =>
    simp only [auto_check_rank_upgrade]
    by_cases h1 : rank_satisfied u.total_comments u.total_likes_received r = true
    · rw [if_pos h1]
      by_cases h2 : rank_promote_cond u r = true
      · rw [if_pos h2]
        exact ⟨rfl, rfl⟩
      · rw [if_neg h2]
        exact ⟨rfl, rfl⟩
    · rw [if_neg h1]
      exact ih

/-- When the loop reports no upgrade, the user row is unchanged. -/
theorem acru_no_upgrade (u : UserRec) (rs : List RankRec)
    (h : (auto_check_rank_upgrade u rs).2 = false) :
    (auto_check_rank_upgrade u rs).1 = u := by
  induction rs with
  | nil => rfl
  | cons r rs ih =>
    simp only [auto_check_rank_upgrade] at h ⊢
    by_cases h1 : rank_satisfied u.total_comments u.total_likes_received r = true
    · rw [if_pos h1] at h ⊢
      by_cases h2 : rank_promote_cond u r = true
      · rw [if_pos h2] at h
        simp at h
      · rw [if_neg h2]
    · rw [if_neg h1] at h ⊢
      exact ih h

/-- When the loop reports an upgrade over a level-descending rank list, the
new rank is a satisfied rank of maximal level among the satisfied ranks, and
the promotion guard held for it. -/
theorem acru_upgrade (u : UserRec) (rs : List RankRec)
    (hs : rs.Pairwise (fun a b => b.level ≤ a.level))
    (h : (auto_check_rank_upgrade u rs).2 = true) :
    ∃ r, r ∈ rs
      ∧ (auto_check_rank_upgrade u rs).1 = { u with rank := some r }
      ∧ rank_satisfied u.total_comments u.total_likes_received r = true
      ∧ rank_promote_cond u r = true
      ∧ ∀ r' ∈ rs, rank_satisfied u.total_comments u.total_likes_received r' = true →
          r'.level ≤ r.level := by
  induction rs with
  | nil => simp [auto_check_rank_upgrade] at h
  | cons r rs ih =>
    rw [List.pairwise_cons] at hs
    simp only [auto_check_rank_upgrade] at h ⊢
    by_cases h1 : rank_satisfied u.total_comments u.total_likes_received r = true
    · rw [if_pos h1] at h ⊢
      by_cases h2 : rank_promote_cond u r = true
      · rw [if_pos h2]
        refine ⟨r, List.mem_cons_self r rs, rfl, h1, h2, ?_⟩
        intro r' hr' _hsat
        rcases List.mem_cons.mp hr' with hx | hx
        · rw [hx]
        · exact hs.1 r' hx
      · rw [if_neg h2] at h
        simp at h
    · rw [if_neg h1] at h ⊢
      obtain ⟨rr, hmem, heq, hsat, hcond, hmax⟩ := ih hs.2 h
      refine ⟨rr, List.mem_cons_of_mem r hmem, heq, hsat, hcond, ?_⟩
      intro r' hr' hsat'
      rcases List.mem_cons.mp hr' with hx | hx
      · rw [hx] at hsat'
        exact absurd hsat' h1
      · exact hmax r' hx hsat'

/-- The loop never lowers an existing rank. -/
theorem acru_never_lowers (u : UserRec) (rs : List RankRec) (cur r' : RankRec)
    (hcur : u.rank = some cur)
    (hres : (auto_check_rank_upgrade u rs).1.rank = some r') :
    cur.level ≤ r'.level := by
  induction rs with
  | nil =>
    simp only [auto_check_rank_upgrade] at hres
    rw [hcur] at hres
    rw [Option.some_inj.mp hres]
  | cons r rs ih =>
    simp only [auto_check_rank_upgrade] at hres
    by_cases h1 : rank_satisfied u.total_comments u.total_likes_received r = true
    · rw [if_pos h1] at hres
      by_cases h2 : rank_promote_cond u r = true
      · rw [if_pos h2] at hres
        simp only at hres
        have hlt : cur.level < r.level := by
          unfold rank_promote_cond at h2
          rw [hcur] at h2
          exact of_decide_eq_true h2
        rw [Option.some_inj.mp hres] at hlt
        exact Nat.le_of_lt hlt
      · rw [if_neg h2] at hres
        rw [hcur] at hres
        rw [Option.some_inj.mp hres]
    · rw [if_neg h1] at hres
      exact ih hres

/-- Re-running the loop on its own output with unchanged counters is a
no-op: the second run reports no upgrade and returns the same row. -/
theorem acru_idempotent (u : UserRec) (rs : List RankRec) :
    auto_check_rank_upgrade (auto_check_rank_upgrade u rs).1 rs
      = ((auto_check_rank_upgrade u rs).1, false) := by
  induction rs with
  | nil => rfl
  | cons r rs ih =>
    simp only [auto_check_rank_upgrade]
    by_cases h1 : rank_satisfied u.total_comments u.total_likes_received r = true
    · rw [if_pos h1]
      by_cases h2 : rank_promote_cond u r = true
      · rw [if_pos h2]
        simp only [auto_check_rank_upgrade]
        rw [if_pos h1]
        have hpc : rank_promote_cond { u with rank := some r } r = false := by
          simp [rank_promote_cond]
        rw [hpc]
        simp
      · rw [if_neg h2]
        simp only [auto_check_rank_upgrade]
        rw [if_pos h1, if_neg h2]
    · rw [if_neg h1]
      have hcnt := acru_counters u rs
      have h1' : rank_satisfied (auto_check_rank_upgrade u rs).1.total_comments
          (auto_check_rank_upgrade u rs).1.total_likes_received r = false := by
        rw [hcnt.1, hcnt.2]
        exact Bool.not_eq_true _ ▸ h1
      rw [h1']
      simp only [Bool.false_eq_true, if_false]
      exact ih

/-- C8: over the active ranks ordered by descending level, the promotion
evaluator picks a satisfied rank of maximal level among the satisfied ones
and promotes only when its level strictly exceeds the current rank's level
(or the account has no rank); when it reports no promotion the row is
unchanged; it never lowers an existing rank; and re-running it with
unchanged counters is a no-op that reports no further promotion. -/
theorem rank_promotion_correct (u : UserRec) (rs : List RankRec)
    (hsorted : rs.Pairwise (fun a b => b.level ≤ a.level))
    (hactive : ∀ r ∈ rs, r.is_active = true) :
    ((auto_check_rank_upgrade u rs).2 = true →
      ∃ r, r ∈ rs
        ∧ (auto_check_rank_upgrade u rs).1 = { u with rank := some r }
        ∧ rank_satisfied u.total_comments u.total_likes_received r = true
        ∧ rank_promote_cond u r = true
        ∧ ∀ r' ∈ rs, rank_satisfied u.total_comments u.total_likes_received r' = true →
            r'.level ≤ r.level)
    ∧ ((auto_check_rank_upgrade u rs).2 = false → (auto_check_rank_upgrade u rs).1 = u)
    ∧ (∀ cur r', u.rank = some cur → (auto_check_rank_upgrade u rs).1.rank = some r' →
        cur.level ≤ r'.level)
    ∧ auto_check_rank_upgrade (auto_check_rank_upgrade u rs).1 rs
        = ((auto_check_rank_upgrade u rs).1, false) := by
  refine ⟨fun h => acru_upgrade u rs hsorted h,
          fun h => acru_no_upgrade u rs h,
          fun cur r' hcur hres => acru_never_lowers u rs cur r' hcur hres,
          acru_idempotent u rs⟩

/-- A concrete active rank hierarchy, descending: level 3 (10 comments / 20
likes), level 2 (5 / 10), level 1 (no requirements). -/
def rankTrusted : RankRec :=
  { id := 3, name := "trusted", display_name := "Trusted", icon := "t",
    level := 3, comments_req := 10, likes_req := 20, is_active := true }

def rankRegular : RankRec :=
  { id := 2, name := "regular", display_name := "Regular", icon := "r",
    level := 2, comments_req := 5, likes_req := 10, is_active := true }

def rankNewbie : RankRec :=
  { id := 1, name := "newbie", display_name := "Newbie", icon := "n",
    level := 1, comments_req := 0, likes_req := 0, is_active := true }

/-- A level-1 user with 12 comments and 25 likes received. -/
def rankUser : UserRec :=
  { baseUser with rank := some rankNewbie, total_comments := 12,
                  total_likes_received := 25 }

theorem rank_promotion_correct_witness :
    List.Pairwise (fun a b => b.level ≤ a.level) [rankTrusted, rankRegular, rankNewbie]
    ∧ (∀ r ∈ [rankTrusted, rankRegular, rankNewbie], r.is_active = true)
    ∧ (((auto_check_rank_upgrade rankUser [rankTrusted, rankRegular, rankNewbie]).2 = true →
          ∃ r, r ∈ [rankTrusted, rankRegular, rankNewbie]
            ∧ (auto_check_rank_upgrade rankUser [rankTrusted, rankRegular, rankNewbie]).1
                = { rankUser with rank := some r }
            ∧ rank_satisfied rankUser.total_comments rankUser.total_likes_received r = true
            ∧ rank_promote_cond rankUser r = true
            ∧ ∀ r' ∈ [rankTrusted, rankRegular, rankNewbie],
                rank_satisfied rankUser.total_comments rankUser.total_likes_received r' = true →
                  r'.level ≤ r.level)
       ∧ ((auto_check_rank_upgrade rankUser [rankTrusted, rankRegular, rankNewbie]).2 = false →
            (auto_check_rank_upgrade rankUser [rankTrusted, rankRegular, rankNewbie]).1 = rankUser)
       ∧ (∀ cur r', rankUser.rank = some cur →
            (auto_check_rank_upgrade rankUser [rankTrusted, rankRegular, rankNewbie]).1.rank
              = some r' → cur.level ≤ r'.level)
       ∧ auto_check_rank_upgrade
            (auto_check_rank_upgrade rankUser [rankTrusted, rankRegular, rankNewbie]).1
            [rankTrusted, rankRegular, rankNewbie]
          = ((auto_check_rank_upgrade rankUser [rankTrusted, rankRegular, rankNewbie]).1,
             false)) :=
  ⟨by decide, by decide,
    rank_promotion_correct rankUser [rankTrusted, rankRegular, rankNewbie]
      (by decide) (by decide)⟩
